import Mathlib

/-!
Shallow embedding of the authentication and authorization core of the
chill-labs backend (Rust/axum service): JWT issue/verify (`src/utils/jwt.rs`),
password hashing (`src/utils/password.rs`), ownership and role checks
(`src/authorization.rs`, `src/middleware/rbac.rs`), the domain error type
(`src/domain/error.rs`), the user model (`src/domain/user/model.rs`) and the
authentication flows (`src/domain/user/service.rs`, `src/domain/auth/service.rs`,
`src/domain/auth/handler.rs`).

Modelling conventions:
* timestamps are `Nat` seconds (chrono `timestamp()` cast to `usize`);
* `Uuid` is modelled as `Nat`; the uuid crate formatting/parsing pair
  (`to_string` / `str::parse::<Uuid>`) is external library code and is passed
  in as an explicit codec;
* the Argon2 key-derivation function is external library code and is passed
  in as an explicit function `kdf : String → Nat → String` (password, salt);
* a database connection is modelled as the list of stored user rows;
* `Utc::now()` and `SaltString::generate(OsRng)` are modelled by explicit
  `now` / `salt` arguments;
* an `anyhow` error is observed throughout the repository only through its
  `Display` form, which shows the outermost context message; we model such an
  error by that message string.
-/

namespace ChillLabs

/-- `TokenType` from `src/utils/jwt.rs`: the token kind discriminant. -/
inductive TokenType where
  | Access
  | Refresh
deriving DecidableEq, Repr

/-- `Claims` from `src/utils/jwt.rs`: the signed JWT payload. `sub` is the
string form of the user id, `exp` and `iat` are UTC timestamps in seconds. -/
structure Claims where
  sub : String
  exp : Nat
  iat : Nat
  email : String
  token_type : TokenType
deriving DecidableEq, Repr

/-- A serialized signed JWT. `jsonwebtoken::encode` produces
`header.payload.signature` where the signature is an HMAC over the payload
with the shared secret; the signature is modelled as the ideal MAC tag
`(secret, claims)`, which verifies exactly when recomputed with the same
secret over the same claims. -/
structure Token where
  claims : Claims
  tag : String × Claims
deriving DecidableEq, Repr

/-- The error kinds of `jsonwebtoken::decode` that can arise for a
well-formed token: the crate verifies the signature first
(`InvalidSignature`) and then validates `exp` (`ExpiredSignature`). -/
inductive JwtLibError where
  | InvalidSignature
  | ExpiredSignature
deriving DecidableEq, Repr

/-- The default leeway, in seconds, of `jsonwebtoken::Validation::default()`
used by `verify_token`. -/
def jwtLeeway : Nat := 60

/-- `jsonwebtoken::decode` with `Validation::default()` (external library
code, modelled at the granularity the repository relies on): check the
signature, then reject if `exp < now - leeway`; only then release the
claims. -/
def decodeToken (secret : String) (now : Nat) (t : Token) : Except JwtLibError Claims :=
  if t.tag = (secret, t.claims) then
    if t.claims.exp < now - jwtLeeway then .error .ExpiredSignature
    else .ok t.claims
  else .error .InvalidSignature

/-- The codec the flows use for user ids inside tokens: `user_id.to_string()`
when issuing and `claims.sub.parse::<uuid::Uuid>()` when consuming. Both are
uuid-crate library code, so they are passed in explicitly; the crate
guarantees `parse (render u) = some u`. -/
structure UuidCodec where
  render : Nat → String
  parse : String → Option Nat

/-- `JwtUtil` from `src/utils/jwt.rs`. The Rust struct stores an encoding and
a decoding key, both derived from the same secret, plus the two configured
lifetimes (hours). -/
structure JwtUtil where
  secret : String
  access_token_expiration_hours : Nat
  refresh_token_expiration_hours : Nat
deriving DecidableEq, Repr

/-- The claims built by `JwtUtil::generate_token_internal`:
`sub = user_id.to_string()`, `exp = now + Duration::hours(h)`, `iat = now`. -/
def mkClaims (uc : UuidCodec) (now user_id : Nat) (email : String)
    (ttype : TokenType) (hours : Nat) : Claims :=
  { sub := uc.render user_id
    exp := now + hours * 3600
    iat := now
    email := email
    token_type := ttype }

/-- `JwtUtil::generate_token_internal`: build the claims and sign them with
the encoding key. Signing failure (`encode` erroring) cannot occur for an
HMAC key and is not modelled. -/
def JwtUtil.generate_token_internal (j : JwtUtil) (uc : UuidCodec)
    (now user_id : Nat) (email : String) (ttype : TokenType) (hours : Nat) : Token :=
  { claims := mkClaims uc now user_id email ttype hours
    tag := (j.secret, mkClaims uc now user_id email ttype hours) }

/-- `JwtUtil::generate_access_token`: kind `Access`, access lifetime. -/
def JwtUtil.generate_access_token (j : JwtUtil) (uc : UuidCodec)
    (now user_id : Nat) (email : String) : Token :=
  j.generate_token_internal uc now user_id email .Access j.access_token_expiration_hours

/-- `JwtUtil::generate_refresh_token`: kind `Refresh`, refresh lifetime. -/
def JwtUtil.generate_refresh_token (j : JwtUtil) (uc : UuidCodec)
    (now user_id : Nat) (email : String) : Token :=
  j.generate_token_internal uc now user_id email .Refresh j.refresh_token_expiration_hours

/-- `JwtUtil::verify_token`: decode with the decoding key and default
validation, wrapping any failure via `.context("Failed to decode token")`
into an `anyhow::Result`. The anyhow error is modelled by its `Display`
output, the uniform context message, which is all any caller in the
repository observes. -/
def JwtUtil.verify_token (j : JwtUtil) (now : Nat) (token : Token) : Except String Claims :=
  match decodeToken j.secret now token with
  | .error _ => .error "Failed to decode token"
  | .ok claims => .ok claims

/-- The outcome of parsing a stored password-hash string with
`argon2::PasswordHash::new`: either a structurally valid PHC string carrying
a salt and a digest, or a malformed string that does not parse. -/
inductive HashStr where
  | valid (salt : Nat) (digest : String)
  | malformed (s : String)
deriving DecidableEq, Repr

/-- `hash_password` from `src/utils/password.rs`: generate a fresh salt
(passed in explicitly, modelling `SaltString::generate(OsRng)`), run the
Argon2 KDF, and return the PHC string. The only failure is a catastrophic
hashing failure inside the library, which is not modelled. -/
def hash_password (kdf : String → Nat → String) (salt : Nat)
    (password : String) : Except String HashStr :=
  .ok (.valid salt (kdf password salt))

/-- `verify_password` from `src/utils/password.rs`: parse the stored string
with `PasswordHash::new`; a malformed string is an error
(`anyhow!("Invalid password hash: ...")`), a parsed one is re-derived with
its embedded salt and compared, giving `Ok(bool)`. -/
def verify_password (kdf : String → Nat → String) (password : String)
    (hash : HashStr) : Except String Bool :=
  match hash with
  | .malformed s => .error ("Invalid password hash: " ++ s)
  | .valid salt digest => .ok (kdf password salt == digest)

/-- `Role` from `src/domain/user/model.rs`. -/
inductive Role where
  | Student
  | Teacher
  | Admin
deriving DecidableEq, Repr

/-- `UserStatus` from `src/domain/user/model.rs`. -/
inductive UserStatus where
  | Active
  | Pending
  | Suspended
deriving DecidableEq, Repr

/-- `User` from `src/domain/user/model.rs` (the domain model with enumerated
role and status). `password_hash` is the stored PHC string, modelled by its
parse outcome. -/
structure User where
  id : Nat
  display_name : Option String
  username : Option String
  email : Option String
  password_hash : HashStr
  role : Role
  status : UserStatus
  created : Nat
  updated : Nat
deriving DecidableEq, Repr

/-- `UserRow` from `src/domain/user/model.rs`: the raw database row, with
open `String` role and status. -/
structure UserRow where
  id : Nat
  display_name : Option String
  username : Option String
  email : Option String
  password_hash : HashStr
  role : String
  status : String
  created : Nat
  updated : Nat
deriving DecidableEq, Repr

/-- `impl From<UserRow> for User` from `src/domain/user/model.rs`. An
unrecognized role or status string hits `panic!("Invalid role: ...")` /
`panic!("Invalid status: ...")`; the panic (abnormal termination, not a
returned error) is modelled as `Except.error` carrying the panic message. -/
def User.from_row (row : UserRow) : Except String User :=
  match row.role with
  | "Student" | "Teacher" | "Admin" =>
    match row.status with
    | "Active" | "Pending" | "Suspended" =>
      .ok { id := row.id
            display_name := row.display_name
            username := row.username
            email := row.email
            password_hash := row.password_hash
            role := if row.role = "Student" then .Student
                    else if row.role = "Teacher" then .Teacher else .Admin
            status := if row.status = "Active" then .Active
                      else if row.status = "Pending" then .Pending else .Suspended
            created := row.created
            updated := row.updated }
    | _ => .error ("Invalid status: " ++ row.status)
  | _ => .error ("Invalid role: " ++ row.role)

/-- The role-string parse in `register` from `src/domain/auth/handler.rs`:
`req.role.as_deref().unwrap_or("Student")` matched against the three known
names, any other string falling through to `Role::Student`. -/
def requested_role (role : Option String) : Role :=
  match role.getD "Student" with
  | "Student" => .Student
  | "Teacher" => .Teacher
  | "Admin" => .Admin
  | _ => .Student

/-- `can_access_resource` from `src/authorization.rs`. The `OwnedResource`
trait is represented by the owner id it exposes. -/
def can_access_resource (authenticated_user : User) (resource_owner : Nat) : Bool :=
  authenticated_user.role == Role.Admin || authenticated_user.id == resource_owner

/-- `get_ownership_filter` from `src/authorization.rs`. -/
def get_ownership_filter (authenticated_user : User) : Option Nat :=
  match authenticated_user.role with
  | .Admin => none
  | _ => some authenticated_user.id

/-- A rejection produced by the rbac middleware in `src/middleware/rbac.rs`,
identified by the response kind and headline message; the human-readable
detail string attached as the second argument of `failure_unauthorized` /
`failure_forbidden` is presentation and is not modelled. -/
inductive GuardErr where
  | Unauthorized (msg : String)
  | Forbidden (msg : String)
deriving DecidableEq, Repr

/-- `require_role` from `src/middleware/rbac.rs`: the guard closure over an
explicit list of allowed roles. The request extension (`Option User`) is the
authenticated user attached by the auth middleware. -/
def require_role (allowed_roles : List Role) (ext : Option User) : Except GuardErr Unit :=
  match ext with
  | none => .error (.Unauthorized "Authentication required")
  | some user =>
    if !(allowed_roles.contains user.role) then
      .error (.Forbidden "Insufficient permissions")
    else .ok ()

/-- `require_admin` from `src/middleware/rbac.rs`. -/
def require_admin (ext : Option User) : Except GuardErr Unit :=
  match ext with
  | none => .error (.Unauthorized "Authentication required")
  | some user =>
    if user.role ≠ Role.Admin then
      .error (.Forbidden "Admin access required")
    else .ok ()

/-- `require_teacher_or_admin` from `src/middleware/rbac.rs`. -/
def require_teacher_or_admin (ext : Option User) : Except GuardErr Unit :=
  match ext with
  | none => .error (.Unauthorized "Authentication required")
  | some user =>
    if user.role ≠ Role.Teacher ∧ user.role ≠ Role.Admin then
      .error (.Forbidden "Insufficient permissions")
    else .ok ()

/-- Modelled from the spec: the fixed total order Student < Teacher < Admin
of section 4.3. The source derives no order on `Role` (only `PartialEq`);
this rank realizes the order of the spec so the guards can be compared
against it. -/
def roleRank : Role → Nat
  | .Student => 0
  | .Teacher => 1
  | .Admin => 2

/-- `AppError` from `src/domain/error.rs`. -/
inductive AppError where
  | Validation (msg : String)
  | InvalidEmail (msg : String)
  | InvalidPassword (msg : String)
  | MissingField (msg : String)
  | UserValidationError (msg : String)
  | NotFound (msg : String)
  | AlreadyExists (msg : String)
  | UsernameAlreadyExists (msg : String)
  | Conflict (msg : String)
  | Unauthorized (msg : String)
  | Forbidden (msg : String)
  | DatabaseError (msg : String)
  | ConnectionError (msg : String)
  | ExternalServiceError (msg : String)
  | Internal (msg : String)
deriving DecidableEq, Repr

/-- `ErrorType` from `src/domain/response.rs`: the client-facing error
classification a response carries. -/
inductive ErrorType where
  | Validation
  | NotFound
  | Unauthorized
  | Forbidden
  | Internal
  | Conflict
deriving DecidableEq, Repr

/-- The `AppError` to `ErrorType` classification of
`ToResponse::to_response` in `src/domain/error.rs`. -/
def appErrorType : AppError → ErrorType
  | .Validation _ => .Validation
  | .InvalidEmail _ => .Validation
  | .InvalidPassword _ => .Validation
  | .MissingField _ => .Validation
  | .UserValidationError _ => .Validation
  | .NotFound _ => .NotFound
  | .AlreadyExists _ => .Conflict
  | .UsernameAlreadyExists _ => .Conflict
  | .Conflict _ => .Conflict
  | .Unauthorized _ => .Unauthorized
  | .Forbidden _ => .Forbidden
  | .DatabaseError _ => .Internal
  | .ConnectionError _ => .Internal
  | .ExternalServiceError _ => .Internal
  | .Internal _ => .Internal

/-- The sea_orm entity `entities::users::Model` backing `UserService`
(`src/domain/user/service.rs`). The generated entity file is not under src/;
its fields are read off the `users::ActiveModel` literal constructed in
`UserService::register`: open `String` role and status, optional username,
email and display name. -/
structure UserModel where
  id : Nat
  username : Option String
  email : Option String
  display_name : Option String
  password_hash : HashStr
  role : String
  status : String
  created : Nat
  updated : Nat
deriving DecidableEq, Repr

/-- `RegisterRequest`: username and/or email, password, optional display
name (`src/domain/auth/model.rs`; the copy imported by
`src/domain/user/service.rs` has the same fields). The derive-macro
validation rules are external validator-crate code, passed in as a
predicate. -/
structure RegisterRequest where
  display_name : Option String
  username : Option String
  email : Option String
  password : String
deriving DecidableEq, Repr

/-- `LoginRequest`: a login identifier (email or username) and a password. -/
structure LoginRequest where
  login : String
  password : String
deriving DecidableEq, Repr

namespace UserService

/-- `AuthResponse` returned by `UserService::register` and
`UserService::login`: both tokens plus the persisted user. -/
structure AuthResponse where
  access_token : Token
  refresh_token : Token
  user : UserModel
deriving DecidableEq, Repr

/-- The username-uniqueness probe of `UserService::register`:
`Users::find().filter(Username.eq(username)).one(db)` when a username was
supplied. -/
def username_taken (db : List UserModel) : Option String → Bool
  | some username => (db.find? fun m => m.username == some username).isSome
  | none => false

/-- The email-uniqueness probe of `UserService::register`. -/
def email_taken (db : List UserModel) : Option String → Bool
  | some email => (db.find? fun m => m.email == some email).isSome
  | none => false

/-- `UserService::register` (`src/domain/user/service.rs`): validate, require
at least one identifier, reject taken username/email, hash the password,
insert the row with role `"student"` and status `"active"`, and issue both
tokens. The database is the list of rows; `now`, `salt` and `new_id` model
`Utc::now()`, the fresh Argon2 salt and `Uuid::now_v7()`. Database I/O
errors are not modelled. Returns the result together with the database
state after the call. -/
def register (jwt : JwtUtil) (uc : UuidCodec) (kdf : String → Nat → String)
    (validate : RegisterRequest → Bool) (db : List UserModel)
    (now salt new_id : Nat) (req : RegisterRequest) :
    Except AppError AuthResponse × List UserModel :=
  if validate req then
    if req.username.isNone && req.email.isNone then
      (.error (.Validation "Either username or email must be provided"), db)
    else if username_taken db req.username then
      (.error (.UsernameAlreadyExists
        ("Username " ++ req.username.getD "" ++ " already exists")), db)
    else if email_taken db req.email then
      (.error (.AlreadyExists ("Email " ++ req.email.getD "" ++ " already exists")), db)
    else
      match hash_password kdf salt req.password with
      | .error e => (.error (.Internal e), db)
      | .ok password_hash =>
        let user_model : UserModel :=
          { id := new_id
            username := req.username
            email := req.email
            display_name := req.display_name
            password_hash := password_hash
            role := "student"
            status := "active"
            created := now
            updated := now }
        let email := user_model.email.getD ""
        (.ok { access_token := jwt.generate_access_token uc now user_model.id email
               refresh_token := jwt.generate_refresh_token uc now user_model.id email
               user := user_model }, db ++ [user_model])
  else (.error (.Validation "invalid input"), db)

/-- `UserService::login` (`src/domain/user/service.rs`): find the user by
username or email, verify the password (an error from `verify_password`
becomes `Internal`, a mismatch the generic `Unauthorized`), then require
status exactly `"active"`, then issue both tokens. -/
def login (jwt : JwtUtil) (uc : UuidCodec) (kdf : String → Nat → String)
    (validate : LoginRequest → Bool) (db : List UserModel) (now : Nat)
    (req : LoginRequest) : Except AppError AuthResponse :=
  if validate req then
    match db.find? (fun m => m.username == some req.login || m.email == some req.login) with
    | none => .error (.Unauthorized "Invalid credentials")
    | some user_model =>
      match verify_password kdf req.password user_model.password_hash with
      | .error e => .error (.Internal e)
      | .ok ok =>
        if ok then
          if user_model.status ≠ "active" then
            .error (.Forbidden "Account is suspended or inactive")
          else
            let email := user_model.email.getD ""
            .ok { access_token := jwt.generate_access_token uc now user_model.id email
                  refresh_token := jwt.generate_refresh_token uc now user_model.id email
                  user := user_model }
        else .error (.Unauthorized "Invalid credentials")
  else .error (.Validation "invalid input")

/-- `UserService::refresh_token` (`src/domain/user/service.rs`): verify the
token (any verification failure becomes `Unauthorized`), require kind
`Refresh`, parse the subject, load the user, accept status `"active"` or
`"pending"`, and issue a new access token only. The request-DTO validation
(token string non-empty) is identically satisfied by encoded tokens and is
not modelled. -/
def refresh_token (jwt : JwtUtil) (uc : UuidCodec) (db : List UserModel)
    (now : Nat) (token : Token) : Except AppError Token :=
  match jwt.verify_token now token with
  | .error _ => .error (.Unauthorized "Invalid refresh token")
  | .ok claims =>
    if claims.token_type ≠ TokenType.Refresh then
      .error (.Unauthorized "Invalid token type")
    else
      match uc.parse claims.sub with
      | none => .error (.Unauthorized "Invalid user ID in token")
      | some user_id =>
        match db.find? (fun m => m.id == user_id) with
        | none => .error (.Unauthorized "User not found")
        | some user =>
          if user.status ≠ "active" ∧ user.status ≠ "pending" then
            .error (.Forbidden "Account is suspended or inactive")
          else .ok (jwt.generate_access_token uc now user_id (user.email.getD ""))

/-- `UserService::verify_token` (`src/domain/user/service.rs`), the
access-token consumer called by the auth middleware on every protected
request: verify, require kind `Access`, parse the subject, load the user,
accept status `"active"` or `"pending"`, and return the user. -/
def verify_token (jwt : JwtUtil) (uc : UuidCodec) (db : List UserModel)
    (now : Nat) (token : Token) : Except AppError UserModel :=
  match jwt.verify_token now token with
  | .error _ => .error (.Unauthorized "Invalid access token")
  | .ok claims =>
    if claims.token_type ≠ TokenType.Access then
      .error (.Unauthorized "Invalid token type")
    else
      match uc.parse claims.sub with
      | none => .error (.Unauthorized "Invalid user ID in token")
      | some user_id =>
        match db.find? (fun m => m.id == user_id) with
        | none => .error (.Unauthorized "User not found")
        | some user_model =>
          if user_model.status ≠ "active" ∧ user_model.status ≠ "pending" then
            .error (.Forbidden "Account is suspended or inactive")
          else .ok user_model

end UserService

namespace AuthService

/-- `AuthResponse` of the `AuthService` variant (`src/domain/auth/model.rs`),
carrying both tokens and the user (the DTO projection is not modelled). -/
structure AuthResponse where
  access_token : Token
  refresh_token : Token
  user : User
deriving DecidableEq, Repr

/-- Modelled from the spec: `UserService::get_user_by_email` as called by
`AuthService::login`; the user-service variant defining it is not under
src/. Per section 4.4, the lookup of the account by identifier returns, when
the account is absent, the same generic unauthorized invalid-credentials
error as the password-mismatch branch, so the two causes are
indistinguishable. -/
def get_user_by_email (db : List User) (email : String) : Except AppError User :=
  match db.find? (fun u => u.email == some email) with
  | some u => .ok u
  | none => .error (.Unauthorized "Invalid credentials")

/-- Modelled from the spec: `UserService::get_user_by_username`, the
username counterpart of `get_user_by_email` (also not under src/). -/
def get_user_by_username (db : List User) (username : String) : Except AppError User :=
  match db.find? (fun u => u.username == some username) with
  | some u => .ok u
  | none => .error (.Unauthorized "Invalid credentials")

/-- `AuthService::login` (`src/domain/auth/service.rs`): dispatch on whether
the identifier contains `@`, look the user up, verify the password (library
errors become `Internal`, a mismatch the generic `Unauthorized`), accept
status `Active` or `Pending`, and issue both tokens. -/
def login (jwt : JwtUtil) (uc : UuidCodec) (kdf : String → Nat → String)
    (validate : LoginRequest → Bool) (db : List User) (now : Nat)
    (req : LoginRequest) : Except AppError AuthResponse :=
  if validate req then
    match (if req.login.data.contains '@' then get_user_by_email db req.login
           else get_user_by_username db req.login) with
    | .error e => .error e
    | .ok user =>
      match verify_password kdf req.password user.password_hash with
      | .error e => .error (.Internal ("Password verification failed: " ++ e))
      | .ok is_valid =>
        if is_valid then
          if user.status ≠ UserStatus.Active ∧ user.status ≠ UserStatus.Pending then
            .error (.Forbidden "Account is suspended or inactive")
          else
            .ok { access_token := jwt.generate_access_token uc now user.id (user.email.getD "")
                  refresh_token := jwt.generate_refresh_token uc now user.id (user.email.getD "")
                  user := user }
        else .error (.Unauthorized "Invalid credentials")
  else .error (.Validation "invalid input")

end AuthService

/-- The user row `UserService::register` persists: the input identifiers and
display name, the fresh hash, role `"student"`, status `"active"`, both
timestamps set to `now`. -/
def registered_user (kdf : String → Nat → String) (now salt new_id : Nat)
    (req : RegisterRequest) : UserModel :=
  { id := new_id
    username := req.username
    email := req.email
    display_name := req.display_name
    password_hash := .valid salt (kdf req.password salt)
    role := "student"
    status := "active"
    created := now
    updated := now }

/-! Concrete fixtures used by witnesses and counterexamples. -/

/-- A concrete KDF instance: witnesses may pick any function for the
external Argon2 parameter. -/
def exKdf : String → Nat → String := fun p _ => p

/-- A concrete uuid codec for the single id 1. -/
def exCodec : UuidCodec := ⟨fun _ => "1", fun _ => some 1⟩

/-- A concrete `JwtUtil` configuration. -/
def exJwt : JwtUtil := ⟨"secret", 1, 24⟩

/-- A concrete admin caller. -/
def exAdmin : User :=
  { id := 1, display_name := none, username := none, email := none
    password_hash := .malformed "", role := .Admin, status := .Active
    created := 0, updated := 0 }

/-- A concrete student caller. -/
def exStudent : User :=
  { id := 2, display_name := none, username := none, email := none
    password_hash := .malformed "", role := .Student, status := .Active
    created := 0, updated := 0 }

/-- A concrete active stored user row whose password is `"pw"` under
`exKdf`. -/
def exActive : UserModel :=
  { id := 1, username := some "alice", email := some "alice@example.com"
    display_name := some "Alice", password_hash := .valid 3 "pw"
    role := "student", status := "active", created := 0, updated := 0 }

/-- `exActive` with status `"pending"`. -/
def exPending : UserModel :=
  { exActive with status := "pending" }

/-- `exActive` with a corrupt (unparsable) stored hash. -/
def exCorrupt : UserModel :=
  { exActive with password_hash := .malformed "x" }

/-- A stored row with an unrecognized role string. -/
def exBadRow : UserRow :=
  { id := 1, display_name := none, username := none, email := none
    password_hash := .malformed "", role := "superuser", status := "Active"
    created := 0, updated := 0 }

/-- A concrete registration request. -/
def exReq : RegisterRequest :=
  { display_name := some "Alice", username := some "alice"
    email := some "alice@example.com", password := "pw" }

/-- Claims of a token that expired long before time 10000. -/
def exClaimsExpired : Claims :=
  { sub := "1", exp := 100, iat := 50, email := "e", token_type := .Access }

/-- An expired token correctly signed with `exJwt`. -/
def exTokExpired : Token :=
  { claims := exClaimsExpired, tag := ("secret", exClaimsExpired) }

/-- Claims of a token that is still valid at time 10000. -/
def exClaimsFuture : Claims :=
  { sub := "1", exp := 999999, iat := 50, email := "e", token_type := .Access }

/-- An unexpired token signed with the wrong secret. -/
def exTokBadSig : Token :=
  { claims := exClaimsFuture, tag := ("wrong", exClaimsFuture) }

/-! Shared lemmas about the jwt layer. -/

/-- Decoding a token generated under the same secret at the same time
succeeds with exactly the generated claims: the tag matches and
`exp = now + hours * 3600` has not passed. -/
theorem decodeToken_generate (j : JwtUtil) (uc : UuidCodec) (now user_id : Nat)
    (email : String) (ttype : TokenType) (hours : Nat) :
    decodeToken j.secret now (j.generate_token_internal uc now user_id email ttype hours) =
      .ok (mkClaims uc now user_id email ttype hours) := by
  unfold decodeToken JwtUtil.generate_token_internal
  rw [if_pos rfl, if_neg (by simp [mkClaims]; omega)]

/-- `verify_token` on a freshly generated token returns the generated
claims. -/
theorem verify_token_generate (j : JwtUtil) (uc : UuidCodec) (now user_id : Nat)
    (email : String) (ttype : TokenType) (hours : Nat) :
    j.verify_token now (j.generate_token_internal uc now user_id email ttype hours) =
      .ok (mkClaims uc now user_id email ttype hours) := by
  unfold JwtUtil.verify_token
  rw [decodeToken_generate]

/-- C4: for every plaintext `p`, `verify_password(p, hash_password(p))`
returns `Ok(true)`, and — under collision resistance of the KDF at the used
salt, the spec's "with overwhelming probability" caveat made explicit — for
distinct plaintexts `p1 ≠ p2`, `verify_password(p1, hash_password(p2))`
returns `Ok(false)`. -/
theorem hash_verify_round_trip (kdf : String → Nat → String) (salt : Nat)
    (p p1 p2 : String) (h h2 : HashStr) :
    (hash_password kdf salt p = .ok h → verify_password kdf p h = .ok true) ∧
    ((∀ a b : String, kdf a salt = kdf b salt → a = b) → p1 ≠ p2 →
      hash_password kdf salt p2 = .ok h2 →
      verify_password kdf p1 h2 = .ok false) := by
  constructor
  · intro hh
    have : h = .valid salt (kdf p salt) := by
      simpa [hash_password] using hh.symm
    subst this
    simp [verify_password]
  · intro hinj hne hh
    have : h2 = .valid salt (kdf p2 salt) := by
      simpa [hash_password] using hh.symm
    subst this
    have : kdf p1 salt ≠ kdf p2 salt := fun hc => hne (hinj _ _ hc)
    simp [verify_password, this]

/-- Witness for `hash_verify_round_trip` at the identity-in-password KDF and
plaintexts `"a"` and `"b"`. -/
theorem hash_verify_round_trip_witness :
    verify_password exKdf "a" (.valid 0 (exKdf "a" 0)) = .ok true ∧
    verify_password exKdf "a" (.valid 0 (exKdf "b" 0)) = .ok false :=
  ⟨(hash_verify_round_trip exKdf 0 "a" "a" "b" (.valid 0 (exKdf "a" 0))
      (.valid 0 (exKdf "b" 0))).1 rfl,
   (hash_verify_round_trip exKdf 0 "a" "a" "b" (.valid 0 (exKdf "a" 0))
      (.valid 0 (exKdf "b" 0))).2 (fun a b hab => hab) (by decide) rfl⟩

/-- C5: `can_access_resource` is true exactly when the caller is an admin or
owns the resource, and `get_ownership_filter` is `none` for an admin and
`some caller.id` for every other role. -/
theorem authorization_policy (u : User) (owner : Nat) :
    (can_access_resource u owner = true ↔ (u.role = Role.Admin ∨ u.id = owner)) ∧
    (u.role = Role.Admin → get_ownership_filter u = none) ∧
    (u.role ≠ Role.Admin → get_ownership_filter u = some u.id) := by
  refine ⟨?_, ?_, ?_⟩
  · simp [can_access_resource]
  · intro hr
    simp [get_ownership_filter, hr]
  · intro hr
    cases hu : u.role
    · simp [get_ownership_filter, hu]
    · simp [get_ownership_filter, hu]
    · exact absurd hu hr

/-- Witness for `authorization_policy`: a concrete admin sees everything, a
concrete student is filtered to their own id and may access their own
resource. -/
theorem authorization_policy_witness :
    get_ownership_filter exAdmin = none ∧
    get_ownership_filter exStudent = some 2 ∧
    can_access_resource exStudent 2 = true :=
  ⟨(authorization_policy exAdmin 5).2.1 rfl,
   (authorization_policy exStudent 7).2.2 (by decide),
   (authorization_policy exStudent 2).1.mpr (Or.inr rfl)⟩

/-- C1 counterexample: the refresh flow given an access token does reject it
with `Unauthorized`, but the message is `"Invalid token type"`, not the
`"wrong token type"` the claim states. -/
theorem token_kind_message_counterexample :
    UserService.refresh_token exJwt exCodec [] 1000
        (exJwt.generate_access_token exCodec 1000 1 "e") =
      .error (.Unauthorized "Invalid token type") ∧
    (AppError.Unauthorized "Invalid token type" ≠
      AppError.Unauthorized "wrong token type") := by
  constructor
  · rfl
  · decide

/-- C1 (amended): an access token verifies to claims of kind `Access`; the
refresh flow rejects that same token with `Unauthorized("Invalid token
type")` instead of issuing a new access token, and symmetrically the
access-token consumer `UserService::verify_token` rejects a refresh token
with the same `Unauthorized` error. -/
theorem token_kind_separation (j : JwtUtil) (uc : UuidCodec) (db : List UserModel)
    (now user_id : Nat) (email : String) :
    (j.verify_token now (j.generate_access_token uc now user_id email) =
        .ok (mkClaims uc now user_id email .Access j.access_token_expiration_hours) ∧
      (mkClaims uc now user_id email .Access j.access_token_expiration_hours).token_type =
        .Access) ∧
    UserService.refresh_token j uc db now (j.generate_access_token uc now user_id email) =
      .error (.Unauthorized "Invalid token type") ∧
    UserService.verify_token j uc db now (j.generate_refresh_token uc now user_id email) =
      .error (.Unauthorized "Invalid token type") := by
  refine ⟨⟨verify_token_generate j uc now user_id email .Access
      j.access_token_expiration_hours, rfl⟩, ?_, ?_⟩
  · unfold UserService.refresh_token JwtUtil.generate_access_token
    rw [verify_token_generate]
    simp [mkClaims]
  · unfold UserService.verify_token JwtUtil.generate_refresh_token
    rw [verify_token_generate]
    simp [mkClaims]

/-- C2 counterexample: a well-signed expired token and a badly signed
unexpired token fail `verify_token` with the very same error value — the
uniform anyhow context `"Failed to decode token"` — so the function does not
return two distinguishable typed errors; the Invalid/Expired distinction
exists only in the discarded `jsonwebtoken` error. -/
theorem verify_token_error_collapse_counterexample :
    JwtUtil.verify_token exJwt 10000 exTokExpired =
      JwtUtil.verify_token exJwt 10000 exTokBadSig ∧
    JwtUtil.verify_token exJwt 10000 exTokExpired = .error "Failed to decode token" ∧
    decodeToken "secret" 10000 exTokExpired = .error .ExpiredSignature ∧
    decodeToken "secret" 10000 exTokBadSig = .error .InvalidSignature :=
  ⟨rfl, rfl, rfl, rfl⟩

/-- C2 (amended): `verify_token` fails on a bad signature and on an expired
token — the underlying decode reports `InvalidSignature` for the former and,
when the signature verifies but `exp` has passed, `ExpiredSignature` — but
the wrapper collapses both into the single opaque error `"Failed to decode
token"`; claims are returned only when the signature verifies and the expiry
has not passed, and no claims data accompanies a failure. -/
theorem verify_token_opaque_failure (j : JwtUtil) (now : Nat) (t : Token) :
    (t.tag = (j.secret, t.claims) → t.claims.exp < now - jwtLeeway →
      decodeToken j.secret now t = .error .ExpiredSignature ∧
      j.verify_token now t = .error "Failed to decode token") ∧
    (t.tag ≠ (j.secret, t.claims) →
      decodeToken j.secret now t = .error .InvalidSignature ∧
      j.verify_token now t = .error "Failed to decode token") ∧
    (∀ c, j.verify_token now t = .ok c →
      c = t.claims ∧ t.tag = (j.secret, t.claims) ∧ ¬ t.claims.exp < now - jwtLeeway) := by
  refine ⟨?_, ?_, ?_⟩
  · intro htag hexp
    have hd : decodeToken j.secret now t = .error .ExpiredSignature := by
      unfold decodeToken
      rw [if_pos htag, if_pos hexp]
    exact ⟨hd, by unfold JwtUtil.verify_token; rw [hd]⟩
  · intro htag
    have hd : decodeToken j.secret now t = .error .InvalidSignature := by
      unfold decodeToken
      rw [if_neg htag]
    exact ⟨hd, by unfold JwtUtil.verify_token; rw [hd]⟩
  · intro c hc
    unfold JwtUtil.verify_token at hc
    by_cases htag : t.tag = (j.secret, t.claims)
    · by_cases hexp : t.claims.exp < now - jwtLeeway
      · have hd : decodeToken j.secret now t = .error .ExpiredSignature := by
          unfold decodeToken
          rw [if_pos htag, if_pos hexp]
        rw [hd] at hc
        cases hc
      · have hd : decodeToken j.secret now t = .ok t.claims := by
          unfold decodeToken
          rw [if_pos htag, if_neg hexp]
        rw [hd] at hc
        cases hc
        exact ⟨rfl, htag, hexp⟩
    · have hd : decodeToken j.secret now t = .error .InvalidSignature := by
        unfold decodeToken
        rw [if_neg htag]
      rw [hd] at hc
      cases hc

/-- Witness for `verify_token_opaque_failure` at the concrete expired and
badly signed tokens. -/
theorem verify_token_opaque_failure_witness :
    decodeToken exJwt.secret 10000 exTokExpired = .error .ExpiredSignature ∧
    JwtUtil.verify_token exJwt 10000 exTokBadSig = .error "Failed to decode token" :=
  ⟨((verify_token_opaque_failure exJwt 10000 exTokExpired).1 rfl (by decide)).1,
   ((verify_token_opaque_failure exJwt 10000 exTokBadSig).2.1 (by decide)).2⟩

/-- C3 counterexample: `verify_password` against a malformed stored string
returns an error, not `false`; and through `UserService::login` the caller
does distinguish the two causes, getting `Internal` for the corrupt record
and `Unauthorized` for a wrong password. -/
theorem verify_password_malformed_counterexample :
    (verify_password exKdf "pw" (.malformed "x")).isOk = false ∧
    UserService.login exJwt exCodec exKdf (fun _ => true) [exCorrupt] 1000
        ⟨"alice", "pw"⟩ = .error (.Internal "Invalid password hash: x") ∧
    UserService.login exJwt exCodec exKdf (fun _ => true) [exActive] 1000
        ⟨"alice", "wrong"⟩ = .error (.Unauthorized "Invalid credentials") :=
  ⟨rfl, rfl, rfl⟩

/-- C3 (amended): `verify_password` returns `Ok(false)` for a mismatch
against a stored string that parses as a password hash, but returns an error
for a malformed stored string — so callers can tell a wrong password from a
corrupt record by error branching. -/
theorem verify_password_mismatch_behavior (kdf : String → Nat → String)
    (p : String) (salt : Nat) (digest s : String) :
    (kdf p salt ≠ digest → verify_password kdf p (.valid salt digest) = .ok false) ∧
    verify_password kdf p (.malformed s) = .error ("Invalid password hash: " ++ s) := by
  constructor
  · intro hne
    simp [verify_password, hne]
  · rfl

/-- Witness for `verify_password_mismatch_behavior` at concrete inputs. -/
theorem verify_password_mismatch_behavior_witness :
    verify_password exKdf "a" (.valid 0 "b") = .ok false ∧
    verify_password exKdf "a" (.malformed "x") = .error ("Invalid password hash: " ++ "x") :=
  ⟨(verify_password_mismatch_behavior exKdf "a" 0 "b" "x").1 (by decide),
   (verify_password_mismatch_behavior exKdf "a" 0 "b" "x").2⟩

/-- C6 counterexample: the generic `require_role` guard checks membership in
an explicit role list, not an order — an Admin caller, strictly above the
Teacher minimum in the spec order, is denied when only `[Teacher]` is
allowed. -/
theorem role_guard_membership_counterexample :
    require_role [Role.Teacher] (some exAdmin) =
      .error (.Forbidden "Insufficient permissions") ∧
    roleRank Role.Teacher < roleRank Role.Admin :=
  ⟨rfl, by decide⟩

/-- C6 (amended): the deployed fixed guards do realize the minimum-role
semantics under the spec order — `require_teacher_or_admin` succeeds exactly
when the caller ranks at least Teacher and denies a lower rank with
`Forbidden("Insufficient permissions")`, `require_admin` succeeds exactly
when the caller ranks at least Admin and denies a lower rank with
`Forbidden("Admin access required")`, and both reject a missing identity
with `Unauthorized("Authentication required")` — while the generic
`require_role` succeeds exactly on membership of the caller's role in the
supplied list. -/
theorem role_guard_semantics (u : User) (allowed : List Role) :
    (require_role allowed (some u) = .ok () ↔ u.role ∈ allowed) ∧
    (require_role allowed none = .error (.Unauthorized "Authentication required")) ∧
    (require_teacher_or_admin none = .error (.Unauthorized "Authentication required")) ∧
    (require_admin none = .error (.Unauthorized "Authentication required")) ∧
    (require_teacher_or_admin (some u) = .ok () ↔ roleRank Role.Teacher ≤ roleRank u.role) ∧
    (roleRank u.role < roleRank Role.Teacher →
      require_teacher_or_admin (some u) = .error (.Forbidden "Insufficient permissions")) ∧
    (require_admin (some u) = .ok () ↔ roleRank Role.Admin ≤ roleRank u.role) ∧
    (roleRank u.role < roleRank Role.Admin →
      require_admin (some u) = .error (.Forbidden "Admin access required")) := by
  refine ⟨?_, rfl, rfl, rfl, ?_, ?_, ?_, ?_⟩
  · by_cases h : u.role ∈ allowed
    · simp [require_role, List.elem_iff.mpr h, h]
    · have hc : allowed.contains u.role = false := by
        rcases hb : allowed.contains u.role
        · rfl
        · exact absurd (List.elem_iff.mp hb) h
      simp [require_role, hc, h]
  · rcases h : u.role <;> simp [require_teacher_or_admin, roleRank, h]
  · intro hlt
    rcases h : u.role
    · simp [require_teacher_or_admin, h]
    · rw [h] at hlt
      simp [roleRank] at hlt
    · rw [h] at hlt
      simp [roleRank] at hlt
  · rcases h : u.role <;> simp [require_admin, roleRank, h]
  · intro hlt
    rcases h : u.role
    · simp [require_admin, h]
    · simp [require_admin, h]
    · rw [h] at hlt
      simp [roleRank] at hlt

/-- Witness for `role_guard_semantics`: a concrete student caller is denied
with the exact `Forbidden` rejections by both fixed guards. -/
theorem role_guard_semantics_witness :
    require_teacher_or_admin (some exStudent) =
      .error (.Forbidden "Insufficient permissions") ∧
    require_admin (some exStudent) = .error (.Forbidden "Admin access required") :=
  ⟨(role_guard_semantics exStudent []).2.2.2.2.2.1 (by decide),
   (role_guard_semantics exStudent []).2.2.2.2.2.2.2 (by decide)⟩

/-- C7: both login implementations return the identical generic
`Unauthorized("Invalid credentials")` error for an unknown identifier and
for a wrong password, so the two failure causes are observationally
indistinguishable. The absent-identifier branch of `AuthService::login`
lives in its user-service lookups, modelled from the spec (see
`AuthService.get_user_by_email`). -/
theorem login_enumeration_resistant (jwt : JwtUtil) (uc : UuidCodec)
    (kdf : String → Nat → String) (validate : LoginRequest → Bool)
    (db : List UserModel) (db2 : List User) (now : Nat) (req : LoginRequest) :
    (validate req = true →
      db.find? (fun m => m.username == some req.login || m.email == some req.login) = none →
      UserService.login jwt uc kdf validate db now req =
        .error (.Unauthorized "Invalid credentials")) ∧
    (∀ m, validate req = true →
      db.find? (fun m => m.username == some req.login || m.email == some req.login) = some m →
      verify_password kdf req.password m.password_hash = .ok false →
      UserService.login jwt uc kdf validate db now req =
        .error (.Unauthorized "Invalid credentials")) ∧
    (db2.find? (fun u => u.email == some req.login) = none →
      AuthService.get_user_by_email db2 req.login =
        .error (.Unauthorized "Invalid credentials")) ∧
    (db2.find? (fun u => u.username == some req.login) = none →
      AuthService.get_user_by_username db2 req.login =
        .error (.Unauthorized "Invalid credentials")) ∧
    (validate req = true →
      (if req.login.data.contains '@' then AuthService.get_user_by_email db2 req.login
       else AuthService.get_user_by_username db2 req.login) =
        .error (.Unauthorized "Invalid credentials") →
      AuthService.login jwt uc kdf validate db2 now req =
        .error (.Unauthorized "Invalid credentials")) ∧
    (∀ u, validate req = true →
      (if req.login.data.contains '@' then AuthService.get_user_by_email db2 req.login
       else AuthService.get_user_by_username db2 req.login) = .ok u →
      verify_password kdf req.password u.password_hash = .ok false →
      AuthService.login jwt uc kdf validate db2 now req =
        .error (.Unauthorized "Invalid credentials")) := by
  refine ⟨?_, ?_, ?_, ?_, ?_, ?_⟩
  · intro hv hfind
    simp [UserService.login, hv, hfind]
  · intro m hv hfind hpw
    simp [UserService.login, hv, hfind, hpw]
  · intro hfind
    simp [AuthService.get_user_by_email, hfind]
  · intro hfind
    simp [AuthService.get_user_by_username, hfind]
  · intro hv hdisp
    unfold AuthService.login
    rw [if_pos hv, hdisp]
  · intro u hv hdisp hpw
    unfold AuthService.login
    rw [if_pos hv, hdisp]
    dsimp only
    rw [hpw]
    rfl

/-- Witness for `login_enumeration_resistant`: an empty directory and a
wrong password produce the same concrete error. -/
theorem login_enumeration_resistant_witness :
    UserService.login exJwt exCodec exKdf (fun _ => true) [] 1000 ⟨"alice", "pw"⟩ =
      .error (.Unauthorized "Invalid credentials") ∧
    UserService.login exJwt exCodec exKdf (fun _ => true) [exActive] 1000
        ⟨"alice", "wrong"⟩ = .error (.Unauthorized "Invalid credentials") ∧
    AuthService.login exJwt exCodec exKdf (fun _ => true) [] 1000 ⟨"alice", "pw"⟩ =
      .error (.Unauthorized "Invalid credentials") :=
  ⟨(login_enumeration_resistant exJwt exCodec exKdf (fun _ => true) [] [] 1000
      ⟨"alice", "pw"⟩).1 rfl rfl,
   (login_enumeration_resistant exJwt exCodec exKdf (fun _ => true) [exActive] [] 1000
      ⟨"alice", "wrong"⟩).2.1 exActive rfl rfl rfl,
   (login_enumeration_resistant exJwt exCodec exKdf (fun _ => true) [] [] 1000
      ⟨"alice", "pw"⟩).2.2.2.2.1 rfl rfl⟩

/-- C8 counterexample: converting a stored row whose role string is
`"superuser"` does not yield an `Internal` error — it hits
`panic!("Invalid role: ...")`, i.e. abnormal termination (modelled as the
panic message); and the register handler maps the unrecognized role string
to the default `Role::Student`. -/
theorem storage_enum_counterexample :
    User.from_row exBadRow = .error "Invalid role: superuser" ∧
    requested_role (some "superuser") = Role.Student :=
  ⟨rfl, rfl⟩

/-- C8 (amended): conversion of a stored row succeeds exactly when both the
role and the status strings are in the closed enumerated sets, and panics
(abnormal termination, not an `Internal` error) otherwise — it never
substitutes a default; separately, the auth register handler does map every
unrecognized requested role string to the default `Role::Student`. -/
theorem storage_enum_handling (row : UserRow) (s : String) :
    ((User.from_row row).isOk = true ↔
      ((row.role = "Student" ∨ row.role = "Teacher" ∨ row.role = "Admin") ∧
       (row.status = "Active" ∨ row.status = "Pending" ∨ row.status = "Suspended"))) ∧
    (s ≠ "Student" → s ≠ "Teacher" → s ≠ "Admin" →
      requested_role (some s) = Role.Student) := by
  constructor
  · unfold User.from_row
    split <;>
      first
        | (split <;> simp_all [Except.isOk, Except.toBool])
        | simp_all [Except.isOk, Except.toBool]
  · intro h1 h2 h3
    unfold requested_role
    split <;> simp_all

/-- Witness for `storage_enum_handling` at a row with valid strings and the
unrecognized requested role `"root"`. -/
theorem storage_enum_handling_witness :
    (User.from_row { exBadRow with role := "Student" }).isOk = true ∧
    requested_role (some "root") = Role.Student :=
  ⟨(storage_enum_handling { exBadRow with role := "Student" } "root").1.mpr
      (by exact ⟨Or.inl rfl, Or.inl rfl⟩),
   (storage_enum_handling exBadRow "root").2 (by decide) (by decide) (by decide)⟩

/-- C9: registration with a free identifier succeeds, persisting exactly one
new row with role `"student"` and status `"active"` and returning it with an
access and a refresh token; registration with a taken username or email
fails with the corresponding already-exists error of the `Conflict` class
and leaves the database unchanged. -/
theorem register_flow (jwt : JwtUtil) (uc : UuidCodec) (kdf : String → Nat → String)
    (validate : RegisterRequest → Bool) (db : List UserModel) (now salt new_id : Nat)
    (req : RegisterRequest) :
    (validate req = true → (req.username.isSome = true ∨ req.email.isSome = true) →
      UserService.username_taken db req.username = false →
      UserService.email_taken db req.email = false →
      UserService.register jwt uc kdf validate db now salt new_id req =
        (.ok { access_token := jwt.generate_access_token uc now new_id (req.email.getD "")
               refresh_token := jwt.generate_refresh_token uc now new_id (req.email.getD "")
               user := registered_user kdf now salt new_id req },
         db ++ [registered_user kdf now salt new_id req]) ∧
      (registered_user kdf now salt new_id req).role = "student" ∧
      (registered_user kdf now salt new_id req).status = "active" ∧
      (jwt.generate_access_token uc now new_id (req.email.getD "")).claims.token_type =
        .Access ∧
      (jwt.generate_refresh_token uc now new_id (req.email.getD "")).claims.token_type =
        .Refresh) ∧
    (validate req = true → UserService.username_taken db req.username = true →
      UserService.register jwt uc kdf validate db now salt new_id req =
        (.error (.UsernameAlreadyExists
          ("Username " ++ req.username.getD "" ++ " already exists")), db) ∧
      appErrorType (.UsernameAlreadyExists
        ("Username " ++ req.username.getD "" ++ " already exists")) = .Conflict) ∧
    (validate req = true → UserService.username_taken db req.username = false →
      UserService.email_taken db req.email = true →
      UserService.register jwt uc kdf validate db now salt new_id req =
        (.error (.AlreadyExists ("Email " ++ req.email.getD "" ++ " already exists")), db) ∧
      appErrorType (.AlreadyExists ("Email " ++ req.email.getD "" ++ " already exists")) =
        .Conflict) := by
  refine ⟨?_, ?_, ?_⟩
  · intro hv hid hu he
    have hnn : (req.username.isNone && req.email.isNone) = false := by
      rcases hid with h | h <;> cases hqu : req.username <;> cases hqe : req.email <;>
        simp_all
    refine ⟨?_, rfl, rfl, rfl, rfl⟩
    simp [UserService.register, hv, hnn, hu, he, hash_password, registered_user]
  · intro hv hu
    have hnn : (req.username.isNone && req.email.isNone) = false := by
      cases hqu : req.username
      · rw [hqu] at hu
        simp [UserService.username_taken] at hu
      · simp [hqu]
    refine ⟨?_, rfl⟩
    simp [UserService.register, hv, hnn, hu]
  · intro hv hu he
    have hnn : (req.username.isNone && req.email.isNone) = false := by
      cases hqe : req.email
      · rw [hqe] at he
        simp [UserService.email_taken] at he
      · simp [hqe]
    refine ⟨?_, rfl⟩
    simp [UserService.register, hv, hnn, hu, he]

/-- Witness for `register_flow`: a concrete registration into an empty
directory succeeds, and re-registering the same username fails with the
conflict error and an unchanged database. -/
theorem register_flow_witness :
    UserService.register exJwt exCodec exKdf (fun _ => true) [] 0 3 1 exReq =
      (.ok { access_token := exJwt.generate_access_token exCodec 0 1 (exReq.email.getD "")
             refresh_token := exJwt.generate_refresh_token exCodec 0 1 (exReq.email.getD "")
             user := registered_user exKdf 0 3 1 exReq },
       [] ++ [registered_user exKdf 0 3 1 exReq]) ∧
    UserService.register exJwt exCodec exKdf (fun _ => true) [exActive] 0 3 2 exReq =
      (.error (.UsernameAlreadyExists
        ("Username " ++ exReq.username.getD "" ++ " already exists")), [exActive]) :=
  ⟨((register_flow exJwt exCodec exKdf (fun _ => true) [] 0 3 1 exReq).1
      rfl (Or.inl rfl) rfl rfl).1,
   ((register_flow exJwt exCodec exKdf (fun _ => true) [exActive] 0 3 2 exReq).2.1
      rfl rfl).1⟩

/-- C10: a Pending account is treated asymmetrically — login rejects it with
`Forbidden` even when the password verifies, because login requires status
exactly `"active"`, while the token flows `refresh_token` and `verify_token`
accept it, because they accept both `"active"` and `"pending"`. -/
theorem pending_status_asymmetry (jwt : JwtUtil) (uc : UuidCodec)
    (kdf : String → Nat → String) (validate : LoginRequest → Bool)
    (db : List UserModel) (now user_id : Nat) (email : String)
    (req : LoginRequest) (u : UserModel) :
    (validate req = true →
      db.find? (fun m => m.username == some req.login || m.email == some req.login) = some u →
      verify_password kdf req.password u.password_hash = .ok true →
      u.status = "pending" →
      UserService.login jwt uc kdf validate db now req =
        .error (.Forbidden "Account is suspended or inactive")) ∧
    (uc.parse (uc.render user_id) = some user_id →
      db.find? (fun m => m.id == user_id) = some u →
      u.status = "pending" →
      UserService.refresh_token jwt uc db now
          (jwt.generate_refresh_token uc now user_id email) =
        .ok (jwt.generate_access_token uc now user_id (u.email.getD "")) ∧
      UserService.verify_token jwt uc db now
          (jwt.generate_access_token uc now user_id email) = .ok u) := by
  constructor
  · intro hv hfind hpw hst
    simp [UserService.login, hv, hfind, hpw, hst]
  · intro hparse hfind hst
    constructor
    · unfold UserService.refresh_token JwtUtil.generate_refresh_token
      rw [verify_token_generate]
      simp [mkClaims, hparse, hfind, hst, JwtUtil.generate_access_token]
    · unfold UserService.verify_token JwtUtil.generate_access_token
      rw [verify_token_generate]
      simp [mkClaims, hparse, hfind, hst]

/-- Witness for `pending_status_asymmetry` at a concrete pending user:
login is `Forbidden` with the right password while refresh and verify
succeed. -/
theorem pending_status_asymmetry_witness :
    UserService.login exJwt exCodec exKdf (fun _ => true) [exPending] 1000
        ⟨"alice", "pw"⟩ = .error (.Forbidden "Account is suspended or inactive") ∧
    UserService.refresh_token exJwt exCodec [exPending] 1000
        (exJwt.generate_refresh_token exCodec 1000 1 "alice@example.com") =
      .ok (exJwt.generate_access_token exCodec 1000 1 (exPending.email.getD "")) ∧
    UserService.verify_token exJwt exCodec [exPending] 1000
        (exJwt.generate_access_token exCodec 1000 1 "alice@example.com") = .ok exPending :=
  ⟨(pending_status_asymmetry exJwt exCodec exKdf (fun _ => true) [exPending] 1000 1
      "alice@example.com" ⟨"alice", "pw"⟩ exPending).1 rfl rfl rfl rfl,
   ((pending_status_asymmetry exJwt exCodec exKdf (fun _ => true) [exPending] 1000 1
      "alice@example.com" ⟨"alice", "pw"⟩ exPending).2 rfl rfl rfl).1,
   ((pending_status_asymmetry exJwt exCodec exKdf (fun _ => true) [exPending] 1000 1
      "alice@example.com" ⟨"alice", "pw"⟩ exPending).2 rfl rfl rfl).2⟩

end ChillLabs
